import Mathlib

/-!
Shallow embedding of the pixel_dash server simulation core
(src/server/src/gameLoop.ts, src/server/src/levelGenerator.ts, shared
types in src/client/src/types.ts) and proofs about its behaviour.

Conventions of the embedding:
* JS numbers that only ever hold integers (tile coordinates, tick counts,
  timestamps) are modelled as Int; pixel-valued quantities (positions,
  velocities, rotation) are modelled as Rat.
* Math.floor is Rat.floor (jsFloor below); the JS remainder operator,
  which keeps the sign of the dividend, is jsRem / Int.tmod.
* In-place mutation of a Player record becomes explicit record update;
  an early return from checkCollisions is an Except.error carrying the
  player state at the moment of the return.
* Dereferencing an identifier that is not in scope (the variable level
  inside processInput) is a thrown ReferenceError, modelled by the
  RuntimeError value threaded out of processInput.
-/

namespace PixelDash

/-- Math.floor on rationals. -/
def jsFloor (q : ℚ) : Int := ⌊q⌋

/-- The JS remainder operator on rationals: sign of the dividend,
computed as a - b * truncate (a / b). -/
def jsRem (a b : ℚ) : ℚ :=
  let t : Int := if a / b ≥ 0 then ⌊a / b⌋ else ⌈a / b⌉
  a - b * (t : ℚ)

theorem jsFloor_eq_floor (q : ℚ) : jsFloor q = ⌊q⌋ := rfl

-- ===========================================================================
-- Tile grid (shared types + levelGenerator.ts)
-- ===========================================================================

inductive TileType where
  | empty | solid | hazard | start | finish | checkpoint
deriving DecidableEq, Repr

structure Tile where
  x : Int
  y : Int
  type : TileType
deriving DecidableEq, Repr

structure Level where
  id : String
  width : Int
  height : Int
  tiles : List Tile
  checkpoints : Option (List Int)
deriving DecidableEq, Repr

inductive Mode where
  | sprint | lap
deriving DecidableEq, Repr

inductive Status where
  | waiting | countdown | racing | finished
deriving DecidableEq, Repr

/-- JS array indexing arr[i] for possibly negative i: undefined (none)
outside the populated range. -/
def jsIndex {α : Type} (l : List α) (i : Int) : Option α :=
  if i < 0 then none else l.get? i.toNat

/-- Inclusive integer range [a, b] in ascending order. -/
def intRange (a b : Int) : List Int :=
  (List.range (b + 1 - a).toNat).map (fun (i : Nat) => a + (i : Int))

/-- LevelGenerator.getTileAt: bounds-checked tile lookup, indexed
column-major as x * height + y; out of bounds gives null. -/
def getTileAt (level : Level) (x y : Int) : Option Tile :=
  if x < 0 ∨ x ≥ level.width ∨ y < 0 ∨ y ≥ level.height then none
  else jsIndex level.tiles (x * level.height + y)

/-- LevelGenerator.isSolid: solid, start and finish tiles are standable. -/
def isSolid (level : Level) (x y : Int) : Bool :=
  match getTileAt level x y with
  | some t => t.type == TileType.solid || t.type == TileType.start || t.type == TileType.finish
  | none => false

/-- LevelGenerator.isHazard. -/
def isHazard (level : Level) (x y : Int) : Bool :=
  match getTileAt level x y with
  | some t => t.type == TileType.hazard
  | none => false

/-- LevelGenerator.isCheckpoint. -/
def isCheckpoint (level : Level) (x y : Int) : Bool :=
  match getTileAt level x y with
  | some t => t.type == TileType.checkpoint
  | none => false

/-- LevelGenerator.isFinish. -/
def isFinish (level : Level) (x y : Int) : Bool :=
  match getTileAt level x y with
  | some t => t.type == TileType.finish
  | none => false

-- ===========================================================================
-- Player, input, game state (shared types)
-- ===========================================================================

structure Player where
  id : String
  name : String
  color : String
  x : ℚ
  y : ℚ
  vx : ℚ
  vy : ℚ
  grounded : Bool
  canDash : Bool
  hasDashed : Bool
  hasFirstJumped : Bool
  hasSecondJump : Bool
  dashCooldown : Int
  isDashing : Bool
  dashRemaining : ℚ
  lapCount : Int
  lastCheckpoint : Int
  finished : Bool
  finishTime : Option Int
  distance : ℚ
  rotation : ℚ
deriving DecidableEq, Repr

structure PlayerInput where
  left : Bool
  right : Bool
  jump : Bool
  dash : Bool
  timestamp : Int
deriving DecidableEq, Repr

structure GameState where
  players : List (String × Player)
  level : Level
  mode : Mode
  startTime : Int
  endTime : Option Int
  status : Status
deriving DecidableEq, Repr

/-- GameLoop instance state: the owned GameState plus the last tick
timestamp used by the fixed rate gate. -/
structure GameLoopState where
  gameState : GameState
  lastTick : Int
deriving DecidableEq, Repr

/-- gameState.players.get(playerId). -/
def findPlayer (gs : GameState) (pid : String) : Option Player :=
  (gs.players.find? (fun e => e.1 == pid)).map (·.2)

/-- Replacing the (mutable) player record held under a key. -/
def setEntry (pid : String) (p : Player) (e : String × Player) : String × Player :=
  if e.1 == pid then (e.1, p) else e

def setPlayer (gs : GameState) (pid : String) (p : Player) : GameState :=
  { gs with players := gs.players.map (setEntry pid p) }

-- ===========================================================================
-- Physics constants (gameLoop.ts)
-- ===========================================================================

def TICK_DURATION : ℚ := 50
def GRAVITY : ℚ := 1/2
def JUMP_STRENGTH : ℚ := -10
def DASH_DISTANCE : ℚ := 10
def DASH_SPEED : ℚ := 90
def DASH_COOLDOWN_TICKS : Int := 30
def SECOND_JUMP_STRENGTH : ℚ := -6
def GROUND_MOVE_SPEED : ℚ := 50
def GROUND_FRICTION : ℚ := 92/100
def ROTATION_SPEED : ℚ := 5
def PLAYER_SIZE : ℚ := 16
def TILE_SIZE : ℚ := 16
def MAX_HORIZONTAL_SPEED : ℚ := GROUND_MOVE_SPEED * 2

-- ===========================================================================
-- Physics integrator: GameLoop.updatePlayer
-- ===========================================================================

/-- GameLoop.updatePlayer: dash cooldown and dash animation bookkeeping,
gravity and spin while airborne, rotation reset and micro-velocity snap
while grounded, position update, distance update, velocity clamping. -/
def updatePlayer (p0 : Player) : Player :=
  -- dash cooldown decrement
  let p1 := if p0.dashCooldown > 0 then { p0 with dashCooldown := p0.dashCooldown - 1 } else p0
  -- dash animation
  let p2 :=
    if p1.isDashing then
      if |p1.vx| < 1/100 then
        { p1 with isDashing := false, dashRemaining := 0, dashCooldown := DASH_COOLDOWN_TICKS }
      else
        let movementThisTick := |p1.vx|
        let rem := p1.dashRemaining - movementThisTick
        if rem ≤ 0 then
          { p1 with isDashing := false, dashRemaining := 0,
                    dashCooldown := DASH_COOLDOWN_TICKS, vx := 0 }
        else { p1 with dashRemaining := rem }
    else p1
  -- airborne: gravity plus visual spin; grounded: rotation reset and snap
  let p3 :=
    if p2.grounded = false then
      let rot := p2.rotation + ROTATION_SPEED * (if p2.vx > 0 then 1 else -1)
      { p2 with vy := p2.vy + GRAVITY, rotation := jsRem rot 360 }
    else
      let pg : Player := { p2 with rotation := 0 }
      if |pg.vx| < 1/20 then { pg with vx := 0 } else pg
  -- position update and ranking distance
  let p4 := { p3 with x := p3.x + p3.vx, y := p3.y + p3.vy }
  let p5 := { p4 with distance := p4.x }
  -- velocity clamping: horizontal only while airborne, vertical always
  let p6 :=
    if p5.grounded = false then
      { p5 with vx := max (-MAX_HORIZONTAL_SPEED) (min MAX_HORIZONTAL_SPEED p5.vx) }
    else p5
  { p6 with vy := max (-15) (min 15 p6.vy) }

-- ===========================================================================
-- Input state machine: GameLoop.processInput
-- ===========================================================================

/-- A thrown JS error. The dash branch of processInput dereferences the
identifier level, which is not declared anywhere in that method (it is a
local of checkCollisions), so entering the scan loop throws. -/
inductive RuntimeError where
  | referenceError (name : String)
deriving DecidableEq, Repr

/-- The two-jump section of processInput (runs even while dashing). -/
def applyJump (input : PlayerInput) (p : Player) : Player :=
  if input.jump then
    if p.grounded then
      -- first jump from the ground; horizontal velocity preserved exactly
      { p with vy := JUMP_STRENGTH, grounded := false,
               hasFirstJumped := true, hasSecondJump := true }
    else
      if p.hasFirstJumped ∧ p.hasSecondJump then
        -- second jump: replace vy while ascending, add to vy while falling
        { p with vy := if p.vy < 0 then SECOND_JUMP_STRENGTH else p.vy + SECOND_JUMP_STRENGTH,
                 hasSecondJump := false }
      else if p.hasFirstJumped = false then
        -- walked off a ledge without jumping: first jump fires in the air
        { p with vy := JUMP_STRENGTH, hasFirstJumped := true, hasSecondJump := true }
      else p
  else p

/-- The horizontal movement section of processInput (reached only when
not dashing): direct assignment on the ground, friction when no
directional input on the ground, air control or momentum in the air. -/
def applyMovement (input : PlayerInput) (p : Player) : Player :=
  if p.grounded then
    if input.left ∧ input.right = false then { p with vx := -GROUND_MOVE_SPEED }
    else if input.right ∧ input.left = false then { p with vx := GROUND_MOVE_SPEED }
    else
      let vx := p.vx * GROUND_FRICTION
      { p with vx := if |vx| < 1/20 then 0 else vx }
  else
    let AIR_CONTROL_SPEED := GROUND_MOVE_SPEED * (4/5)
    if input.left ∧ input.right = false then { p with vx := -AIR_CONTROL_SPEED }
    else if input.right ∧ input.left = false then { p with vx := AIR_CONTROL_SPEED }
    else p

/-- Dash direction choice: sign of the current horizontal velocity when
moving, else the directional input, defaulting rightward. -/
def dashDirectionOf (input : PlayerInput) (q : Player) : Int :=
  if |q.vx| > 1/10 then (if q.vx > 0 then 1 else -1)
  else if input.right then 1 else if input.left then -1 else 1

/-- The first scan column of the dash wall-scan loop: playerRight + 1
when dashing rightward, playerLeft - 1 when dashing leftward. -/
def dashScanStartX (input : PlayerInput) (q : Player) : Int :=
  if dashDirectionOf input q > 0 then jsFloor ((q.x + PLAYER_SIZE) / TILE_SIZE) + 1
  else jsFloor (q.x / TILE_SIZE) - 1

/-- The last scan column of the dash wall-scan loop, derived from the
dash target position. -/
def dashScanEndX (input : PlayerInput) (q : Player) : Int :=
  if dashDirectionOf input q > 0 then
    jsFloor ((q.x + (dashDirectionOf input q : ℚ) * (DASH_DISTANCE * 16) + PLAYER_SIZE) / TILE_SIZE)
  else jsFloor ((q.x + (dashDirectionOf input q : ℚ) * (DASH_DISTANCE * 16)) / TILE_SIZE)

/-- The columns the dash wall-scan loop iterates over, in loop order:
startX up to endX rightward, startX down to endX leftward. -/
def dashScanCols (input : PlayerInput) (q : Player) : List Int :=
  if dashDirectionOf input q > 0 then
    intRange (dashScanStartX input q) (dashScanEndX input q)
  else (intRange (dashScanEndX input q) (dashScanStartX input q)).reverse

/-- Whether the dash wall-scan loop dereferences the unbound identifier
level: its body guard is checkX >= 0 && checkX < level.width, and the
JS && short-circuits, so level.width is read (and the ReferenceError
thrown) exactly on the first iteration whose column is non-negative; a
scan whose columns are all negative never touches level. -/
def dashScanHitsLevel (input : PlayerInput) (q : Player) : Bool :=
  (dashScanCols input q).any (fun c => decide (0 ≤ c))

/-- The body of processInput after the staleness gate: jump section,
early return while dashing, movement section, dash trigger. The dash
trigger block computes its direction and scan bounds and runs its wall
scan loop: iterations whose column is negative short-circuit before
the unbound identifier level is read, so a scan whose columns are all
negative (a leftward dash from less than one tile in from x = 0)
completes with blockingWallX = -1 and starts the dash at the full
distance; the first iteration whose column is non-negative reads
level.width (source line 479) and throws. The player state carried
next to the error is the state already mutated before the throw,
matching JS in-place mutation (the dash-start assignments on lines
508-510 are only reached when no column was non-negative). -/
def processInputCore (input : PlayerInput) (p : Player) : Player × Option RuntimeError :=
  let p1 := applyJump input p
  if p1.isDashing then (p1, none)
  else
    let p2 := applyMovement input p1
    if input.dash ∧ p2.dashCooldown ≤ 0 ∧ p2.isDashing = false then
      let dashDirection : Int := dashDirectionOf input p2
      let dashDistance : ℚ := DASH_DISTANCE * 16
      if dashScanHitsLevel input p2 then
        (p2, some (RuntimeError.referenceError "level"))
      else
        ({ p2 with isDashing := true, dashRemaining := dashDistance,
                   vx := (dashDirection : ℚ) * DASH_SPEED }, none)
    else (p2, none)

/-- GameLoop.processInput: look the player up, drop the event if the
player is absent, the race is not running, the player has finished or
the event is stale (older than 200 ms), otherwise run the core and
store the mutated player back. -/
def processInput (gs : GameState) (now : Int) (pid : String) (input : PlayerInput) :
    GameState × Option RuntimeError :=
  match findPlayer gs pid with
  | none => (gs, none)
  | some p =>
    if gs.status ≠ Status.racing then (gs, none)
    else if p.finished then (gs, none)
    else if input.timestamp < now - 200 then (gs, none)
    else
      let r := processInputCore input p
      (setPlayer gs pid r.1, r.2)

-- ===========================================================================
-- Race progress tracker: checkCheckpoints, checkFinish, respawnPlayer,
-- checkRaceEnd
-- ===========================================================================

/-- GameLoop.checkCheckpoints: in lap mode, advance lastCheckpoint to the
next index (modulo checkpoint count, JS remainder) when the player
center is within 2 tiles of that checkpoint tile; increment lapCount
when the condition lastCheckpoint == 0 and nextCheckpointIdx == 0
holds after the advance. An empty checkpoint list indexes the array at
NaN in JS, which reads undefined and leaves the player untouched. -/
def checkCheckpoints (mode : Mode) (level : Level) (p : Player) : Player :=
  if mode ≠ Mode.lap then p
  else
    let playerCenterX := jsFloor ((p.x + PLAYER_SIZE / 2) / TILE_SIZE)
    let playerCenterY := jsFloor ((p.y + PLAYER_SIZE / 2) / TILE_SIZE)
    match level.checkpoints with
    | none => p
    | some cps =>
      if cps.length = 0 then p
      else
        let nextCheckpointIdx : Int := Int.tmod (p.lastCheckpoint + 1) cps.length
        match jsIndex cps nextCheckpointIdx with
        | none => p
        | some checkpointIdx =>
          match jsIndex level.tiles checkpointIdx with
          | none => p
          | some checkpointTile =>
            if |playerCenterX - checkpointTile.x| < 2 ∧ |playerCenterY - checkpointTile.y| < 2 then
              let p1 := { p with lastCheckpoint := nextCheckpointIdx }
              if p1.lastCheckpoint = 0 ∧ nextCheckpointIdx = 0 then
                { p1 with lapCount := p1.lapCount + 1 }
              else p1
            else p

/-- GameLoop.checkFinish: sprint mode finishes on the finish tile; lap
mode additionally requires lapCount at or above 2; finishTime is set
only the first time. -/
def checkFinish (mode : Mode) (level : Level) (startTime now : Int) (p : Player) : Player :=
  let playerCenterX := jsFloor ((p.x + PLAYER_SIZE / 2) / TILE_SIZE)
  let playerCenterY := jsFloor ((p.y + PLAYER_SIZE / 2) / TILE_SIZE)
  match mode with
  | Mode.sprint =>
    if isFinish level playerCenterX playerCenterY then
      if p.finished = false then
        { p with finished := true, finishTime := some (now - startTime) }
      else p
    else p
  | Mode.lap =>
    if p.lapCount ≥ 2 ∧ isFinish level playerCenterX playerCenterY then
      if p.finished = false then
        { p with finished := true, finishTime := some (now - startTime) }
      else p
    else p

/-- GameLoop.respawnPlayer: find the first start tile of the level and
reset position (on top of the tile), velocity, grounded, jump flags,
canDash/hasDashed, dash cooldown and checkpoint progress. No start
tile means no change. isDashing, dashRemaining, lapCount, finished,
finishTime, distance and rotation are not touched. -/
def respawnPlayer (level : Level) (p : Player) : Player :=
  match level.tiles.find? (fun t => t.type == TileType.start) with
  | none => p
  | some t =>
    { p with x := (t.x : ℚ) * TILE_SIZE, y := (t.y : ℚ) * TILE_SIZE - PLAYER_SIZE,
             vx := 0, vy := 0, grounded := false,
             hasFirstJumped := false, hasSecondJump := false,
             canDash := true, hasDashed := false, dashCooldown := 0,
             lastCheckpoint := -1 }

-- ===========================================================================
-- Collision resolver: GameLoop.checkCollisions
-- ===========================================================================

/-- Descending range [hi, hi-1, ..., 0]; empty when hi is negative. -/
def descRange (hi : Int) : List Int :=
  (List.range (hi + 1).toNat).map (fun (i : Nat) => hi - (i : Int))

/-- The downward for loop that walks up a column of solid tiles starting
at startY and returns the topmost row of the unbroken solid run. -/
def scanUpAux (lvl : Level) (x : Int) : List Int → Int → Int
  | [], acc => acc
  | y :: rest, acc => if isSolid lvl x y then scanUpAux lvl x rest y else acc

def scanUp (lvl : Level) (x startY : Int) : Int := scanUpAux lvl x (descRange startY) startY

/-- Cancelling an active dash and starting its cooldown (the common
three-line mutation repeated at every wall hit). -/
def cancelDash (q : Player) : Player :=
  if q.isDashing then
    { q with isDashing := false, dashRemaining := 0, dashCooldown := DASH_COOLDOWN_TICKS }
  else q

/-- Tile box of the player at tick entry (computed once at the top of
checkCollisions and reused by every later stage, even after the player
position has been mutated). -/
def pLeftOf (p : Player) : Int := jsFloor (p.x / TILE_SIZE)
def pRightOf (p : Player) : Int := jsFloor ((p.x + PLAYER_SIZE) / TILE_SIZE)
def pTopOf (p : Player) : Int := jsFloor (p.y / TILE_SIZE)
def pBottomOf (p : Player) : Int := jsFloor ((p.y + PLAYER_SIZE) / TILE_SIZE)
def pCenterXOf (p : Player) : Int := jsFloor ((p.x + PLAYER_SIZE / 2) / TILE_SIZE)

/-- Landing via the common center-of-player check: snap Y when off by
more than 0.1, zero vy, ground, zero rotation, and reset the two jump
flags (this path does not touch canDash or hasDashed). -/
def landCenterOn (pb : Int) (p : Player) : Player :=
  let expectedY : ℚ := (pb : ℚ) * TILE_SIZE - PLAYER_SIZE
  let p1 := if |p.y - expectedY| > 1/10 then { p with y := expectedY } else p
  { p1 with vy := 0, grounded := true, rotation := 0,
            hasFirstJumped := false, hasSecondJump := false }

/-- Landing via the center-below check or either fallback check: snap Y
when off by more than 0.1, zero vy, ground, zero rotation, and reset
canDash/hasDashed (these paths do not touch the jump flags). -/
def landResetDash (targetY : ℚ) (p : Player) : Player :=
  let p1 := if |p.y - targetY| > 1/10 then { p with y := targetY } else p
  { p1 with vy := 0, grounded := true, rotation := 0,
            canDash := true, hasDashed := false }

/-- The fallback ground scan over every tile column the box overlaps:
standing-on check first, then tile-below check, first hit wins. -/
def fallbackScan (lvl : Level) (pb : Int) (p : Player) : List Int → Player × Bool
  | [] => (p, false)
  | x :: rest =>
    if isSolid lvl x pb ∧
        (p.y + PLAYER_SIZE ≥ (pb : ℚ) * TILE_SIZE - 2 ∧
         p.y + PLAYER_SIZE ≤ (pb : ℚ) * TILE_SIZE + 4) then
      (landResetDash ((pb : ℚ) * TILE_SIZE - PLAYER_SIZE) p, true)
    else if (pb + 1 ≥ 0 ∧ pb + 1 < lvl.height) ∧ isSolid lvl x (pb + 1) ∧
        p.vy ≥ -(1/2) ∧ |p.y - (pb : ℚ) * TILE_SIZE| ≤ 4 then
      (landResetDash ((pb : ℚ) * TILE_SIZE) p, true)
    else fallbackScan lvl pb p rest

/-- Ground detection: center-on check, then center-below check, then the
full-column fallback scan. Returns the player and the onGround flag. -/
def groundStage (lvl : Level) (pcx pl pr pb : Int) (p : Player) : Player × Bool :=
  if isSolid lvl pcx pb ∧
      (p.y + PLAYER_SIZE ≥ (pb : ℚ) * TILE_SIZE - 2 ∧
       p.y + PLAYER_SIZE ≤ (pb : ℚ) * TILE_SIZE + 4) then
    (landCenterOn pb p, true)
  else if (pb + 1 < lvl.height) ∧ isSolid lvl pcx (pb + 1) ∧
      p.vy ≥ -(1/2) ∧ |p.y - (pb : ℚ) * TILE_SIZE| ≤ 4 then
    (landResetDash ((pb : ℚ) * TILE_SIZE) p, true)
  else fallbackScan lvl pb p (intRange pl pr)

/-- Ceiling: any solid tile one row above the top edge snaps Y down and
zeroes vy. -/
def ceilingStage (lvl : Level) (pl pr pt : Int) (p : Player) : Player :=
  if (intRange pl pr).any (fun x => isSolid lvl x (pt - 1)) then
    { p with y := (pt : ℚ) * TILE_SIZE, vy := 0 }
  else p

/-- One column test of the upward 2+ wall check. -/
def vwallHit (lvl : Level) (pt : Int) (p : Player) (x : Int) : Bool :=
  decide (0 ≤ x ∧ x < lvl.width) && isSolid lvl x (pt - 1) && isSolid lvl x (pt - 2) &&
  decide (p.x + PLAYER_SIZE > (x : ℚ) * TILE_SIZE ∧ p.x < ((x : ℚ) + 1) * TILE_SIZE)

/-- Vertical wall check while moving upward and not dashing: overlapped
columns first, then the two columns just outside the box. -/
def vwallStage (lvl : Level) (pl pr pt : Int) (p : Player) : Player :=
  if p.vy < 0 ∧ p.isDashing = false then
    let p1 :=
      if (intRange pl pr).any (vwallHit lvl pt p) then
        { p with y := ((pt : ℚ) - 1) * TILE_SIZE, vy := 0 }
      else p
    if [pl - 1, pr + 1].any (vwallHit lvl pt p1) then
      { p1 with y := ((pt : ℚ) - 1) * TILE_SIZE, vy := 0 }
    else p1
  else p

/-- One column test of the embedded-inside-a-thick-wall sweep. -/
def eclampHit (lvl : Level) (pb : Int) (p : Player) (x : Int) : Bool :=
  decide (0 ≤ x ∧ x < lvl.width) && decide (pb - 1 ≥ 0 ∧ pb - 2 ≥ 0) &&
  isSolid lvl x (pb - 1) && isSolid lvl x (pb - 2) &&
  decide (p.x + PLAYER_SIZE > (x : ℚ) * TILE_SIZE ∧ p.x < ((x : ℚ) + 1) * TILE_SIZE) &&
  decide (p.y < (pb : ℚ) * TILE_SIZE ∧ p.y + PLAYER_SIZE > ((pb : ℚ) - 2) * TILE_SIZE)

/-- If the player is found inside a 2+ tile wall, clamp out to the side
given by the travel direction (nearer side at rest), cancel any dash
and exit collision processing for the tick. -/
def eclampStage (lvl : Level) (pl pr pb : Int) (p : Player) : Except Player Player :=
  match (intRange pl pr).find? (eclampHit lvl pb p) with
  | none => Except.ok p
  | some x =>
    let tileLeftX : ℚ := (x : ℚ) * TILE_SIZE
    let tileRightX : ℚ := ((x : ℚ) + 1) * TILE_SIZE
    if p.vx > 0 then Except.error (cancelDash { p with x := tileLeftX - PLAYER_SIZE, vx := 0 })
    else if p.vx < 0 then Except.error (cancelDash { p with x := tileRightX, vx := 0 })
    else
      let distToLeft := |p.x + PLAYER_SIZE - tileLeftX|
      let distToRight := |tileRightX - p.x|
      Except.error (cancelDash
        { p with x := if distToLeft < distToRight then tileLeftX - PLAYER_SIZE else tileRightX,
                 vx := 0 })

/-- Phase D of the rightward side-wall check: given the blocking row,
the multi-level flag and the (possibly already clamped) player, decide
between auto step-up, hard block and pass-through clamping. The
playerRightX / playerTopY / playerBottomY arguments are the stale
locals bound before any phase A clamp. -/
def swallRightResolve (lvl : Level) (pb nextTileX bty : Int) (imw : Bool) (pA : Player)
    (tileLeftX tileRightX playerRightX playerTopY playerBottomY : ℚ) : Except Player Player :=
  let tileTopY : ℚ := (bty : ℚ) * TILE_SIZE
  let tileBottomY : ℚ := ((bty : ℚ) + 1) * TILE_SIZE
  let elevationChange : Int := pb - bty
  let hOverlap := playerRightX > tileLeftX ∧ pA.x < tileRightX
  let vOverlap := playerTopY < tileBottomY ∧ playerBottomY > tileTopY
  let isStepUp := elevationChange = 1
  let isApproaching := playerRightX ≥ tileLeftX - 2 ∧ pA.x < tileRightX
  let shouldStepUp := isStepUp ∧ isApproaching
  let playerNextX : ℚ := pA.x + pA.vx * (TICK_DURATION / 16)
  let playerNextRightX : ℚ := playerNextX + PLAYER_SIZE
  let isCurrentlyApproaching := playerRightX ≥ tileLeftX - 2 ∧ pA.x < tileRightX
  let willBeApproaching := playerNextRightX ≥ tileLeftX ∧ playerNextX < tileRightX
  let movementPathIntersects := pA.vx > 0 ∧ pA.x < tileRightX ∧ playerNextX ≥ tileLeftX
  let isApproachingWall := isCurrentlyApproaching ∨ willBeApproaching ∨ movementPathIntersects
  let isWallAbovePlayer := bty < pb
  let shouldBlock := imw = true ∨ elevationChange ≥ 2 ∨ (elevationChange ≥ 1 ∧ isWallAbovePlayer)
  let hasPassedThroughWall := imw = true ∧ playerRightX > tileLeftX ∧ pA.x < tileLeftX
  let shouldBlockWithOverlap :=
    if imw then (isApproachingWall ∨ hOverlap ∨ hasPassedThroughWall)
    else shouldBlock ∧ (isApproachingWall ∨ (hOverlap ∧ vOverlap))
  if shouldStepUp ∨ shouldBlockWithOverlap ∨ (hOverlap ∧ vOverlap ∧ elevationChange = 0) then
    if hasPassedThroughWall then Except.error { pA with x := tileLeftX - PLAYER_SIZE, vx := 0 }
    else if elevationChange = 1 ∧ imw = false then
      Except.ok { pA with y := (bty : ℚ) * TILE_SIZE - PLAYER_SIZE, vy := 0, grounded := true,
                          hasFirstJumped := false, hasSecondJump := false, rotation := 0 }
    else if imw = true ∨ elevationChange ≥ 2 ∨ (elevationChange ≥ 1 ∧ bty < pb) then
      if pA.grounded ∨ pA.isDashing then
        Except.error (cancelDash { pA with x := tileLeftX - PLAYER_SIZE, vx := 0 })
      else if pA.vy < 0 ∧ playerTopY < tileBottomY then
        Except.error { pA with x := tileLeftX - PLAYER_SIZE, vx := 0, vy := 0 }
      else
        let platformTopY := scanUp lvl nextTileX bty
        Except.error { pA with y := (platformTopY : ℚ) * TILE_SIZE - PLAYER_SIZE, vy := 0,
                               grounded := true, hasFirstJumped := false, hasSecondJump := false,
                               rotation := 0, x := tileLeftX - PLAYER_SIZE, vx := 0 }
    else
      if pA.grounded ∨ pA.isDashing then
        Except.error (cancelDash { pA with x := tileLeftX - PLAYER_SIZE, vx := 0 })
      else
        let platformTopY := scanUp lvl nextTileX bty
        Except.error { pA with y := (platformTopY : ℚ) * TILE_SIZE - PLAYER_SIZE, vy := 0,
                               grounded := true, hasFirstJumped := false, hasSecondJump := false,
                               rotation := 0, x := tileLeftX - PLAYER_SIZE, vx := 0 }
  else Except.ok pA

/-- The rightward side-wall check for the column just right of the box:
sweep detection of a 2+ wall (phase A, may clamp mid-flight), scan of
the rows the box overlaps (phase B), step-up detection (phase C), then
resolution (phase D). -/
def swallRight (lvl : Level) (pt pb nextTileX : Int) (p : Player) : Except Player Player :=
  let tileLeftX : ℚ := (nextTileX : ℚ) * TILE_SIZE
  let tileRightX : ℚ := ((nextTileX : ℚ) + 1) * TILE_SIZE
  let playerRightX : ℚ := p.x + PLAYER_SIZE
  let playerTopY : ℚ := p.y
  let playerBottomY : ℚ := p.y + PLAYER_SIZE
  let phaseA : Option (Int × Player) :=
    if (pb - 1 ≥ 0 ∧ pb - 2 ≥ 0) ∧ isSolid lvl nextTileX (pb - 1) ∧
        isSolid lvl nextTileX (pb - 2) then
      let previousX : ℚ := p.x - p.vx * (TICK_DURATION / 16)
      let previousRightX : ℚ := previousX + PLAYER_SIZE
      let pathCrossesWall := previousRightX < tileLeftX ∧ playerRightX ≥ tileLeftX
      let isCurrentlyOverlapping := playerRightX ≥ tileLeftX - 2 ∧ p.x < tileLeftX + TILE_SIZE
      if pathCrossesWall ∨ isCurrentlyOverlapping then
        let p1 := if pathCrossesWall ∧ playerRightX > tileLeftX then
                    { p with x := tileLeftX - PLAYER_SIZE, vx := 0 } else p
        some (scanUp lvl nextTileX (pb - 1), p1)
      else none
    else none
  match phaseA with
  | some r =>
    swallRightResolve lvl pb nextTileX r.1 true r.2
      tileLeftX tileRightX playerRightX playerTopY playerBottomY
  | none =>
    match (intRange pt pb).find? (fun y =>
        decide (0 ≤ y ∧ y < lvl.height) && isSolid lvl nextTileX y &&
        decide (playerRightX > tileLeftX ∧ p.x < tileRightX) &&
        decide (playerTopY < ((y : ℚ) + 1) * TILE_SIZE ∧ playerBottomY > (y : ℚ) * TILE_SIZE)) with
    | some bty =>
      swallRightResolve lvl pb nextTileX bty false p
        tileLeftX tileRightX playerRightX playerTopY playerBottomY
    | none =>
      if pb - 1 ≥ 0 ∧ isSolid lvl nextTileX (pb - 1) then
        if pb - 2 ≥ 0 ∧ isSolid lvl nextTileX (pb - 2) then
          swallRightResolve lvl pb nextTileX (scanUp lvl nextTileX (pb - 1)) true p
            tileLeftX tileRightX playerRightX playerTopY playerBottomY
        else
          let tileTopY : ℚ := ((pb : ℚ) - 1) * TILE_SIZE
          let horizontalApproach := playerRightX ≥ tileLeftX - 2 ∧ p.x < tileRightX
          let verticalDistance := tileTopY - playerBottomY
          if horizontalApproach ∧ -TILE_SIZE ≤ verticalDistance ∧ verticalDistance ≤ TILE_SIZE then
            swallRightResolve lvl pb nextTileX (pb - 1) false p
              tileLeftX tileRightX playerRightX playerTopY playerBottomY
          else Except.ok p
      else Except.ok p

/-- Phase D of the leftward side-wall check. Note the asymmetry with the
right side: isStepUp also requires the multi-level flag to be off. -/
def swallLeftResolve (lvl : Level) (pb nextTileX bty : Int) (imw : Bool) (pA : Player)
    (tileLeftX tileRightX playerLeftX playerTopY playerBottomY : ℚ) : Except Player Player :=
  let tileTopY : ℚ := (bty : ℚ) * TILE_SIZE
  let tileBottomY : ℚ := ((bty : ℚ) + 1) * TILE_SIZE
  let elevationChange : Int := pb - bty
  let hOverlap := playerLeftX < tileRightX ∧ pA.x + PLAYER_SIZE > tileLeftX
  let vOverlap := playerTopY < tileBottomY ∧ playerBottomY > tileTopY
  let isStepUp := elevationChange = 1 ∧ imw = false
  let isApproaching := playerLeftX ≤ tileRightX + 2 ∧ pA.x + PLAYER_SIZE > tileLeftX
  let shouldStepUp := isStepUp ∧ isApproaching
  let playerNextX : ℚ := pA.x + pA.vx * (TICK_DURATION / 16)
  let isCurrentlyApproaching := playerLeftX ≤ tileRightX + 2 ∧ pA.x + PLAYER_SIZE > tileLeftX
  let willBeApproaching := playerNextX ≤ tileRightX ∧ playerNextX + PLAYER_SIZE > tileLeftX
  let movementPathIntersects := pA.vx < 0 ∧ pA.x + PLAYER_SIZE > tileLeftX ∧ playerNextX ≤ tileRightX
  let isApproachingWall := isCurrentlyApproaching ∨ willBeApproaching ∨ movementPathIntersects
  let isWallAbovePlayer := bty < pb
  let shouldBlock := imw = true ∨ elevationChange ≥ 2 ∨ (elevationChange ≥ 1 ∧ isWallAbovePlayer)
  let hasPassedThroughWall := imw = true ∧ playerLeftX < tileRightX ∧ pA.x + PLAYER_SIZE > tileRightX
  let shouldBlockWithOverlap :=
    if imw then (isApproachingWall ∨ hOverlap ∨ hasPassedThroughWall)
    else shouldBlock ∧ (isApproachingWall ∨ (hOverlap ∧ vOverlap))
  if shouldStepUp ∨ shouldBlockWithOverlap ∨ (hOverlap ∧ vOverlap ∧ elevationChange = 0) then
    if hasPassedThroughWall then Except.error { pA with x := tileRightX, vx := 0 }
    else if elevationChange = 1 ∧ imw = false then
      Except.ok { pA with y := (bty : ℚ) * TILE_SIZE - PLAYER_SIZE, vy := 0, grounded := true,
                          hasFirstJumped := false, hasSecondJump := false, rotation := 0 }
    else if imw = true ∨ elevationChange ≥ 2 ∨ (elevationChange ≥ 1 ∧ bty < pb) then
      if pA.grounded ∨ pA.isDashing then
        Except.error (cancelDash { pA with x := tileRightX, vx := 0 })
      else if pA.vy < 0 ∧ playerTopY < tileBottomY then
        Except.error { pA with x := tileRightX, vx := 0, vy := 0 }
      else
        let platformTopY := scanUp lvl nextTileX bty
        Except.error { pA with y := (platformTopY : ℚ) * TILE_SIZE - PLAYER_SIZE, vy := 0,
                               grounded := true, hasFirstJumped := false, hasSecondJump := false,
                               rotation := 0, x := tileRightX, vx := 0 }
    else
      if pA.grounded ∨ pA.isDashing then
        Except.error (cancelDash { pA with x := tileRightX, vx := 0 })
      else
        let platformTopY := scanUp lvl nextTileX bty
        Except.error { pA with y := (platformTopY : ℚ) * TILE_SIZE - PLAYER_SIZE, vy := 0,
                               grounded := true, hasFirstJumped := false, hasSecondJump := false,
                               rotation := 0, x := tileRightX, vx := 0 }
  else Except.ok pA

/-- The leftward side-wall check for the column just left of the box.
The step-up detection here does not raise the multi-level flag even for
a 2+ wall (asymmetry with the right side, embedded as in the source). -/
def swallLeft (lvl : Level) (pt pb nextTileX : Int) (p : Player) : Except Player Player :=
  let tileLeftX : ℚ := (nextTileX : ℚ) * TILE_SIZE
  let tileRightX : ℚ := ((nextTileX : ℚ) + 1) * TILE_SIZE
  let playerLeftX : ℚ := p.x
  let playerTopY : ℚ := p.y
  let playerBottomY : ℚ := p.y + PLAYER_SIZE
  let phaseA : Option (Int × Player) :=
    if (pb - 1 ≥ 0 ∧ pb - 2 ≥ 0) ∧ isSolid lvl nextTileX (pb - 1) ∧
        isSolid lvl nextTileX (pb - 2) then
      let previousX : ℚ := p.x - p.vx * (TICK_DURATION / 16)
      let pathCrossesWall := previousX > tileRightX ∧ playerLeftX ≤ tileRightX
      let isCurrentlyOverlapping :=
        playerLeftX ≤ tileRightX + 2 ∧ p.x + PLAYER_SIZE > (nextTileX : ℚ) * TILE_SIZE
      if pathCrossesWall ∨ isCurrentlyOverlapping then
        let p1 := if pathCrossesWall ∧ playerLeftX < tileRightX then
                    { p with x := tileRightX, vx := 0 } else p
        some (scanUp lvl nextTileX (pb - 1), p1)
      else none
    else none
  match phaseA with
  | some r =>
    swallLeftResolve lvl pb nextTileX r.1 true r.2
      tileLeftX tileRightX playerLeftX playerTopY playerBottomY
  | none =>
    match (intRange pt pb).find? (fun y =>
        decide (0 ≤ y ∧ y < lvl.height) && isSolid lvl nextTileX y &&
        decide (playerLeftX < tileRightX ∧ p.x + PLAYER_SIZE > tileLeftX) &&
        decide (playerTopY < ((y : ℚ) + 1) * TILE_SIZE ∧ playerBottomY > (y : ℚ) * TILE_SIZE)) with
    | some bty =>
      swallLeftResolve lvl pb nextTileX bty false p
        tileLeftX tileRightX playerLeftX playerTopY playerBottomY
    | none =>
      if pb - 1 ≥ 0 ∧ isSolid lvl nextTileX (pb - 1) then
        if pb - 2 ≥ 0 ∧ isSolid lvl nextTileX (pb - 2) then
          swallLeftResolve lvl pb nextTileX (scanUp lvl nextTileX (pb - 1)) false p
            tileLeftX tileRightX playerLeftX playerTopY playerBottomY
        else
          let tileTopY : ℚ := ((pb : ℚ) - 1) * TILE_SIZE
          let horizontalApproach := playerLeftX ≤ tileRightX + 2 ∧ p.x + PLAYER_SIZE > tileLeftX
          let verticalDistance := tileTopY - playerBottomY
          if horizontalApproach ∧ -TILE_SIZE ≤ verticalDistance ∧ verticalDistance ≤ TILE_SIZE then
            swallLeftResolve lvl pb nextTileX (pb - 1) false p
              tileLeftX tileRightX playerLeftX playerTopY playerBottomY
          else Except.ok p
      else Except.ok p

/-- Side-wall dispatch: skipped unless horizontal speed exceeds 0.1; the
testground level wraps around at its outer columns instead. -/
def swallStage (lvl : Level) (pl pr pt pb : Int) (p : Player) : Except Player Player :=
  if |p.vx| > 1/10 then
    if p.vx > 1/10 then
      if lvl.id == "testground" ∧ pr + 1 ≥ lvl.width then
        Except.ok { p with x := 2 * TILE_SIZE }
      else if 0 ≤ pr + 1 ∧ pr + 1 < lvl.width then swallRight lvl pt pb (pr + 1) p
      else Except.ok p
    else if p.vx < -(1/10) then
      if lvl.id == "testground" ∧ pl - 1 < 0 then
        Except.ok { p with x := ((lvl.width : ℚ) - 3) * TILE_SIZE }
      else if 0 ≤ pl - 1 ∧ pl - 1 < lvl.width then swallLeft lvl pt pb (pl - 1) p
      else Except.ok p
    else Except.ok p
  else Except.ok p

/-- Any hazard tile inside the (entry) tile box of the player. -/
def hazardInBox (lvl : Level) (pl pr pt pb : Int) : Bool :=
  (intRange pl pr).any (fun x => (intRange pt pb).any (fun y => isHazard lvl x y))

/-- Ground, ceiling and upward-wall stages composed (the part of
checkCollisions before any early return is possible). -/
def ccStage3 (lvl : Level) (p0 : Player) : Player × Bool :=
  let r := groundStage lvl (pCenterXOf p0) (pLeftOf p0) (pRightOf p0) (pBottomOf p0) p0
  let p2 := ceilingStage lvl (pLeftOf p0) (pRightOf p0) (pTopOf p0) r.1
  (vwallStage lvl (pLeftOf p0) (pRightOf p0) (pTopOf p0) p2, r.2)

/-- GameLoop.checkCollisions: ground, ceiling, upward wall, embedded
clamp, side walls, hazards, grounded-state invalidation, in source
order; the tile box is computed once from the entry position. -/
def checkCollisions (lvl : Level) (p0 : Player) : Player :=
  let pl := pLeftOf p0
  let pr := pRightOf p0
  let pt := pTopOf p0
  let pb := pBottomOf p0
  let r := ccStage3 lvl p0
  match eclampStage lvl pl pr pb r.1 with
  | Except.error pexit => pexit
  | Except.ok p4 =>
    match swallStage lvl pl pr pt pb p4 with
    | Except.error pexit => pexit
    | Except.ok p5 =>
      if hazardInBox lvl pl pr pt pb then respawnPlayer lvl p5
      else if p5.grounded ∧ r.2 = false then { p5 with grounded := false }
      else p5

/-- GameLoop.checkRaceEnd: force the race to finished after the 90 s
limit; in sprint mode also end as soon as every player has finished. -/
def checkRaceEnd (gs : GameState) (now : Int) : GameState :=
  if now - gs.startTime > 90000 then
    { gs with status := Status.finished, endTime := some now }
  else if gs.mode = Mode.sprint ∧ gs.players.all (fun e => e.2.finished) then
    { gs with status := Status.finished, endTime := some now }
  else gs

-- ===========================================================================
-- Simulation driver: GameLoop.update
-- ===========================================================================

/-- The per-player pipeline of one tick: physics, collisions, checkpoint
progress, finish detection. -/
def tickPlayer (lvl : Level) (mode : Mode) (startTime now : Int) (p : Player) : Player :=
  checkFinish mode lvl startTime now
    (checkCheckpoints mode lvl (checkCollisions lvl (updatePlayer p)))

/-- One map entry of the per-tick player loop: finished players are
skipped (left untouched), everyone else runs the pipeline. -/
def tickEntry (lvl : Level) (mode : Mode) (startTime now : Int) (e : String × Player) :
    String × Player :=
  if e.2.finished then e else (e.1, tickPlayer lvl mode startTime now e.2)

/-- GameLoop.update: skip unless racing, enforce the fixed tick rate
against lastTick, run the pipeline for every non-finished player, then
check the race end conditions. -/
def update (g : GameLoopState) (now : Int) : GameLoopState :=
  if g.gameState.status ≠ Status.racing then g
  else if now - g.lastTick < 50 then g
  else
    let gs := g.gameState
    let players := gs.players.map (tickEntry gs.level gs.mode gs.startTime now)
    { gameState := checkRaceEnd { gs with players := players } now, lastTick := now }

-- ===========================================================================
-- Shared helper lemmas
-- ===========================================================================

theorem applyJump_isDashing (input : PlayerInput) (p : Player) :
    (applyJump input p).isDashing = p.isDashing := by
  unfold applyJump; split <;> try rfl
  split <;> try rfl
  split <;> try rfl
  split <;> rfl

theorem applyJump_vx (input : PlayerInput) (p : Player) :
    (applyJump input p).vx = p.vx := by
  unfold applyJump; split <;> try rfl
  split <;> try rfl
  split <;> try rfl
  split <;> rfl

theorem applyJump_dashCooldown (input : PlayerInput) (p : Player) :
    (applyJump input p).dashCooldown = p.dashCooldown := by
  unfold applyJump; split <;> try rfl
  split <;> try rfl
  split <;> try rfl
  split <;> rfl

theorem applyJump_dashRemaining (input : PlayerInput) (p : Player) :
    (applyJump input p).dashRemaining = p.dashRemaining := by
  unfold applyJump; split <;> try rfl
  split <;> try rfl
  split <;> try rfl
  split <;> rfl

theorem applyMovement_isDashing (input : PlayerInput) (p : Player) :
    (applyMovement input p).isDashing = p.isDashing := by
  unfold applyMovement; split <;> (try split) <;> (try split) <;> rfl

theorem applyMovement_dashCooldown (input : PlayerInput) (p : Player) :
    (applyMovement input p).dashCooldown = p.dashCooldown := by
  unfold applyMovement; split <;> (try split) <;> (try split) <;> rfl

theorem dash_scan_right (x : ℚ) :
    jsFloor ((x + 16) / 16) + 1 ≤ jsFloor ((x + 160 + 16) / 16) := by
  simp only [jsFloor_eq_floor]
  have h : (x + 160 + 16) / 16 = (x + 16) / 16 + ((10 : ℤ) : ℚ) := by push_cast; ring
  rw [h, Int.floor_add_int]
  omega

theorem dash_scan_left (x : ℚ) :
    jsFloor ((x - 160) / 16) ≤ jsFloor (x / 16) - 1 := by
  simp only [jsFloor_eq_floor]
  have h : (x - 160) / 16 = x / 16 + ((-10 : ℤ) : ℚ) := by push_cast; ring
  rw [h, Int.floor_add_int]
  omega

theorem dashDirectionOf_cases (input : PlayerInput) (q : Player) :
    dashDirectionOf input q = 1 ∨ dashDirectionOf input q = -1 := by
  unfold dashDirectionOf
  split
  · split
    · exact Or.inl rfl
    · exact Or.inr rfl
  · split
    · exact Or.inl rfl
    · split
      · exact Or.inr rfl
      · exact Or.inl rfl

theorem mem_intRange_left (a b : Int) (h : a ≤ b) : a ∈ intRange a b := by
  simp only [intRange, List.mem_map, List.mem_range]
  refine ⟨0, by omega, by omega⟩

theorem mem_intRange_right (a b : Int) (h : a ≤ b) : b ∈ intRange a b := by
  simp only [intRange, List.mem_map, List.mem_range]
  refine ⟨(b - a).toNat, by omega, by omega⟩

theorem applyJump_x (input : PlayerInput) (p : Player) :
    (applyJump input p).x = p.x := by
  unfold applyJump; split <;> try rfl
  split <;> try rfl
  split <;> try rfl
  split <;> rfl

theorem applyMovement_x (input : PlayerInput) (p : Player) :
    (applyMovement input p).x = p.x := by
  unfold applyMovement; split <;> (try split) <;> (try split) <;> rfl

/-- Whenever the dashing player is at least one tile in from x = 0, the
wall scan reaches a non-negative column in either direction (its very
first column qualifies), so the unbound identifier level is read. -/
theorem dashScanHitsLevel_of_ge16 (input : PlayerInput) (q : Player) (hx : (16 : ℚ) ≤ q.x) :
    dashScanHitsLevel input q = true := by
  rcases dashDirectionOf_cases input q with h | h
  · have hpos : dashDirectionOf input q > 0 := by rw [h]; norm_num
    have hse : dashScanStartX input q ≤ dashScanEndX input q := by
      unfold dashScanStartX dashScanEndX
      rw [h]
      simp only [show ((1 : Int) > 0) = True by simp, if_true]
      have harg : q.x + ((1 : Int) : ℚ) * (DASH_DISTANCE * 16) + PLAYER_SIZE = q.x + 160 + 16 := by
        simp [DASH_DISTANCE, PLAYER_SIZE]; ring
      rw [harg]
      simpa [PLAYER_SIZE, TILE_SIZE] using dash_scan_right q.x
    have h0 : 0 ≤ dashScanStartX input q := by
      unfold dashScanStartX
      rw [h]
      simp only [show ((1 : Int) > 0) = True by simp, if_true]
      have hf : (2 : ℤ) ≤ ⌊(q.x + 16) / (16 : ℚ)⌋ := by
        rw [Int.le_floor]
        rw [le_div_iff₀ (by norm_num : (0 : ℚ) < 16)]
        push_cast
        linarith
      simp only [jsFloor_eq_floor, PLAYER_SIZE, TILE_SIZE]
      omega
    unfold dashScanHitsLevel dashScanCols
    rw [if_pos hpos, List.any_eq_true]
    exact ⟨dashScanStartX input q, mem_intRange_left _ _ hse, decide_eq_true h0⟩
  · have hneg : ¬ dashDirectionOf input q > 0 := by rw [h]; norm_num
    have hse : dashScanEndX input q ≤ dashScanStartX input q := by
      unfold dashScanStartX dashScanEndX
      rw [h]
      simp only [show ((-1 : Int) > 0) = False by simp, if_false]
      have harg : q.x + ((-1 : Int) : ℚ) * (DASH_DISTANCE * 16) = q.x - 160 := by
        simp [DASH_DISTANCE]; ring
      rw [harg]
      simpa [TILE_SIZE] using dash_scan_left q.x
    have h0 : 0 ≤ dashScanStartX input q := by
      unfold dashScanStartX
      rw [h]
      simp only [show ((-1 : Int) > 0) = False by simp, if_false]
      have hf : (1 : ℤ) ≤ ⌊q.x / (16 : ℚ)⌋ := by
        rw [Int.le_floor]
        rw [le_div_iff₀ (by norm_num : (0 : ℚ) < 16)]
        push_cast
        linarith
      simp only [jsFloor_eq_floor, TILE_SIZE]
      omega
    unfold dashScanHitsLevel dashScanCols
    rw [if_neg hneg, List.any_eq_true]
    exact ⟨dashScanStartX input q,
      List.mem_reverse.mpr (mem_intRange_right _ _ hse), decide_eq_true h0⟩

/-- A dashing player early-returns right after the jump section. -/
theorem processInputCore_dashing (input : PlayerInput) (p : Player)
    (h : (applyJump input p).isDashing = true) :
    processInputCore input p = (applyJump input p, none) := by
  unfold processInputCore
  simp [h]

/-- Without the dash bit the trigger block is skipped entirely: the
result is the jump section (while dashing) or the movement section. -/
theorem processInputCore_no_dash (input : PlayerInput) (p : Player)
    (hd : input.dash = false) :
    processInputCore input p =
      (if (applyJump input p).isDashing then applyJump input p
       else applyMovement input (applyJump input p), none) := by
  unfold processInputCore
  by_cases h : (applyJump input p).isDashing
  · simp [h]
  · simp [h, hd]

/-- When the dash trigger fires and the wall scan reaches a column at or
right of 0, the core throws with the pre-dash player state. -/
theorem processInputCore_dash_throws (input : PlayerInput) (p : Player)
    (hdash : input.dash = true)
    (hnd1 : (applyJump input p).isDashing = false)
    (hcool : (applyMovement input (applyJump input p)).dashCooldown ≤ 0)
    (hnd2 : (applyMovement input (applyJump input p)).isDashing = false)
    (hhit : dashScanHitsLevel input (applyMovement input (applyJump input p)) = true) :
    processInputCore input p =
      (applyMovement input (applyJump input p),
       some (RuntimeError.referenceError "level")) := by
  unfold processInputCore
  simp [hnd1, hdash, hcool, hnd2, hhit]

-- ===========================================================================
-- Concrete fixtures used by witnesses and counterexamples
-- ===========================================================================

/-- A default player record: at rest at the origin, airborne, no flags,
no progress. -/
def basePlayer : Player :=
  { id := "p1", name := "n", color := "c", x := 0, y := 0, vx := 0, vy := 0,
    grounded := false, canDash := false, hasDashed := false,
    hasFirstJumped := false, hasSecondJump := false, dashCooldown := 0,
    isDashing := false, dashRemaining := 0, lapCount := 0, lastCheckpoint := -1,
    finished := false, finishTime := none, distance := 0, rotation := 0 }

/-- A 3 x 2 lap level with three checkpoint tiles (tile indices 0, 2, 4)
over a solid floor row. -/
def lvlC1 : Level :=
  { id := "lap1", width := 3, height := 2,
    tiles := [⟨0, 0, TileType.checkpoint⟩, ⟨0, 1, TileType.solid⟩,
              ⟨1, 0, TileType.checkpoint⟩, ⟨1, 1, TileType.solid⟩,
              ⟨2, 0, TileType.checkpoint⟩, ⟨2, 1, TileType.solid⟩],
    checkpoints := some [0, 2, 4] }

/-- A 4 x 5 level whose two bottom rows are solid and the rest empty. -/
def lvlC6 : Level :=
  { id := "flat", width := 4, height := 5,
    tiles := (List.range 4).flatMap (fun x => (List.range 5).map (fun y =>
      ⟨x, y, if y ≥ 3 then TileType.solid else TileType.empty⟩)),
    checkpoints := none }

/-- A player standing exactly on the floor of lvlC6 with canDash false
and a used first jump. -/
def pC6 : Player := { basePlayer with x := 32, y := 32, canDash := false, hasFirstJumped := true }

/-- What the center-on landing path produces from pC6. -/
def pC6r : Player :=
  { pC6 with vy := 0, grounded := true, rotation := 0, hasFirstJumped := false, hasSecondJump := false }

/-- A 4 x 5 level with a start tile at (0, 0) and a hazard at (2, 3). -/
def lvlC7 : Level :=
  { id := "hz", width := 4, height := 5,
    tiles := [⟨0, 0, TileType.start⟩, ⟨0, 1, TileType.empty⟩, ⟨0, 2, TileType.empty⟩,
              ⟨0, 3, TileType.empty⟩, ⟨0, 4, TileType.empty⟩,
              ⟨1, 0, TileType.empty⟩, ⟨1, 1, TileType.empty⟩, ⟨1, 2, TileType.empty⟩,
              ⟨1, 3, TileType.empty⟩, ⟨1, 4, TileType.empty⟩,
              ⟨2, 0, TileType.empty⟩, ⟨2, 1, TileType.empty⟩, ⟨2, 2, TileType.empty⟩,
              ⟨2, 3, TileType.hazard⟩, ⟨2, 4, TileType.empty⟩,
              ⟨3, 0, TileType.empty⟩, ⟨3, 1, TileType.empty⟩, ⟨3, 2, TileType.empty⟩,
              ⟨3, 3, TileType.empty⟩, ⟨3, 4, TileType.empty⟩],
    checkpoints := none }

/-- A dashing, motionless player whose box overlaps the hazard of lvlC7. -/
def pC7 : Player :=
  { basePlayer with x := 32, y := 32, isDashing := true, dashRemaining := 77, lapCount := 5, lastCheckpoint := 1 }

-- Evaluation helpers for the lvlC6 scenario.

theorem pC6_box : pLeftOf pC6 = 2 ∧ pRightOf pC6 = 3 ∧ pTopOf pC6 = 2 ∧
    pBottomOf pC6 = 3 ∧ pCenterXOf pC6 = 2 := by
  refine ⟨?_, ?_, ?_, ?_, ?_⟩ <;>
    norm_num [pLeftOf, pRightOf, pTopOf, pBottomOf, pCenterXOf, jsFloor, pC6, basePlayer,
      TILE_SIZE, PLAYER_SIZE]

theorem groundStage_lvlC6 : groundStage lvlC6 2 2 3 3 pC6 = (pC6r, true) := by
  have hs23 : isSolid lvlC6 2 3 = true := by decide
  rw [groundStage]
  rw [if_pos]
  · congr 1
    norm_num [landCenterOn, pC6r, pC6, basePlayer, TILE_SIZE, PLAYER_SIZE]
  · refine ⟨hs23, ?_, ?_⟩ <;> norm_num [pC6, basePlayer, TILE_SIZE, PLAYER_SIZE]

theorem checkCollisions_lvlC6 : checkCollisions lvlC6 pC6 = pC6r := by
  obtain ⟨hbl, hbr, hbt, hbb, hbc⟩ := pC6_box
  have hr23 : intRange 2 3 = [2, 3] := by decide
  have h21 : isSolid lvlC6 2 1 = false := by decide
  have h31 : isSolid lvlC6 3 1 = false := by decide
  have h22 : isSolid lvlC6 2 2 = false := by decide
  have h32 : isSolid lvlC6 3 2 = false := by decide
  have hceil : ceilingStage lvlC6 2 3 2 pC6r = pC6r := by
    simp [ceilingStage, hr23, h21, h31]
  have hvw : vwallStage lvlC6 2 3 2 pC6r = pC6r := by
    norm_num [vwallStage, pC6r, pC6, basePlayer]
  have hcc3 : ccStage3 lvlC6 pC6 = (pC6r, true) := by
    simp only [ccStage3, hbl, hbr, hbt, hbb, hbc, groundStage_lvlC6, hceil, hvw]
  have hec : eclampStage lvlC6 2 3 3 pC6r = Except.ok pC6r := by
    simp [eclampStage, eclampHit, hr23, h22, h32]
  have hsw : swallStage lvlC6 2 3 2 3 pC6r = Except.ok pC6r := by
    norm_num [swallStage, pC6r, pC6, basePlayer]
  have hhz : hazardInBox lvlC6 2 3 2 3 = false := by decide
  simp [checkCollisions, hbl, hbr, hbt, hbb, hcc3, hec, hsw, hhz]

-- Evaluation helpers for the lvlC7 scenario.

theorem pC7_box : pLeftOf pC7 = 2 ∧ pRightOf pC7 = 3 ∧ pTopOf pC7 = 2 ∧
    pBottomOf pC7 = 3 ∧ pCenterXOf pC7 = 2 := by
  refine ⟨?_, ?_, ?_, ?_, ?_⟩ <;>
    norm_num [pLeftOf, pRightOf, pTopOf, pBottomOf, pCenterXOf, jsFloor, pC7, basePlayer,
      TILE_SIZE, PLAYER_SIZE]

theorem ccStage3_lvlC7 : ccStage3 lvlC7 pC7 = (pC7, false) := by
  obtain ⟨hbl, hbr, hbt, hbb, hbc⟩ := pC7_box
  have hs23 : isSolid lvlC7 2 3 = false := by decide
  have hs24 : isSolid lvlC7 2 4 = false := by decide
  have hs33 : isSolid lvlC7 3 3 = false := by decide
  have hs34 : isSolid lvlC7 3 4 = false := by decide
  have hr23 : intRange 2 3 = [2, 3] := by decide
  have hg : groundStage lvlC7 2 2 3 3 pC7 = (pC7, false) := by
    simp [groundStage, fallbackScan, hr23, hs23, hs24, hs33, hs34]
  have h21 : isSolid lvlC7 2 1 = false := by decide
  have h31 : isSolid lvlC7 3 1 = false := by decide
  have hceil : ceilingStage lvlC7 2 3 2 pC7 = pC7 := by
    simp [ceilingStage, hr23, h21, h31]
  have hvw : vwallStage lvlC7 2 3 2 pC7 = pC7 := by
    norm_num [vwallStage, pC7, basePlayer]
  simp only [ccStage3, hbl, hbr, hbt, hbb, hbc, hg, hceil, hvw]

theorem eclampStage_lvlC7 : eclampStage lvlC7 2 3 3 pC7 = Except.ok pC7 := by
  have h22 : isSolid lvlC7 2 2 = false := by decide
  have h32 : isSolid lvlC7 3 2 = false := by decide
  have hr23 : intRange 2 3 = [2, 3] := by decide
  simp [eclampStage, eclampHit, hr23, h22, h32]

theorem swallStage_lvlC7 : swallStage lvlC7 2 3 2 3 pC7 = Except.ok pC7 := by
  norm_num [swallStage, pC7, basePlayer]

theorem checkCollisions_lvlC7 : checkCollisions lvlC7 pC7 = respawnPlayer lvlC7 pC7 := by
  obtain ⟨hbl, hbr, hbt, hbb, hbc⟩ := pC7_box
  have hhz : hazardInBox lvlC7 2 3 2 3 = true := by decide
  simp only [checkCollisions, hbl, hbr, hbt, hbb, ccStage3_lvlC7, eclampStage_lvlC7,
    swallStage_lvlC7, hhz, if_true]

end PixelDash

-- ===========================================================================
-- Claim C9: tile queries are total and false / none out of bounds
-- ===========================================================================

namespace PixelDash

/-- Claim C9: for every level and every integer coordinate pair outside
the level bounds, getTileAt returns none and isSolid, isHazard,
isCheckpoint and isFinish all return false (totality holds by
construction: all five are total Lean functions). -/
theorem tile_queries_out_of_bounds (level : Level) (x y : Int)
    (h : x < 0 ∨ x ≥ level.width ∨ y < 0 ∨ y ≥ level.height) :
    getTileAt level x y = none ∧
    isSolid level x y = false ∧
    isHazard level x y = false ∧
    isCheckpoint level x y = false ∧
    isFinish level x y = false := by
  have hnone : getTileAt level x y = none := by
    unfold getTileAt
    simp [h]
  refine ⟨hnone, ?_, ?_, ?_, ?_⟩ <;> simp [isSolid, isHazard, isCheckpoint, isFinish, hnone]

/-- Witness for tile_queries_out_of_bounds at a concrete level and a
concrete out-of-bounds coordinate. -/
theorem tile_queries_out_of_bounds_witness :
    ((-1 : Int) < 0 ∨ (-1 : Int) ≥ (2 : Int) ∨ (3 : Int) < 0 ∨ (3 : Int) ≥ (2 : Int)) ∧
    getTileAt { id := "w9", width := 2, height := 2,
                tiles := [⟨0, 0, TileType.solid⟩, ⟨0, 1, TileType.solid⟩,
                          ⟨1, 0, TileType.hazard⟩, ⟨1, 1, TileType.finish⟩],
                checkpoints := none } (-1) 3 = none :=
  ⟨Or.inl (by decide),
   (tile_queries_out_of_bounds
     { id := "w9", width := 2, height := 2,
       tiles := [⟨0, 0, TileType.solid⟩, ⟨0, 1, TileType.solid⟩,
                 ⟨1, 0, TileType.hazard⟩, ⟨1, 1, TileType.finish⟩],
       checkpoints := none } (-1) 3 (Or.inl (by decide))).1⟩

-- ===========================================================================
-- Claim C1: lap counting on checkpoint advance
-- ===========================================================================

/-- Claim C1, failing-input evaluation: a player whose lastCheckpoint is
-1 (race start or just respawned) who reaches checkpoint index 0 of a
3-checkpoint lap level has lapCount incremented, because the wrap test
nextCheckpointIdx == 0 also holds for (-1 + 1) mod 3. The claim (and
the source comment, which says the increment means the player passed
the last checkpoint and looped back) requires no increment here. -/
theorem lap_increment_at_first_checkpoint :
    basePlayer.lastCheckpoint = -1 ∧ basePlayer.lapCount = 0 ∧
    (checkCheckpoints Mode.lap lvlC1 basePlayer).lastCheckpoint = 0 ∧
    (checkCheckpoints Mode.lap lvlC1 basePlayer).lapCount = 1 := by
  refine ⟨rfl, rfl, ?_, ?_⟩ <;>
    norm_num [checkCheckpoints, lvlC1, basePlayer, jsIndex, jsFloor, PLAYER_SIZE, TILE_SIZE,
      Int.tmod]

-- ===========================================================================
-- Claim C8: airborne rotation advance
-- ===========================================================================

/-- Claim C8, failing-input evaluation: an airborne player with zero
horizontal velocity and rotation 0 leaves updatePlayer with rotation
-5, which lies outside [0, 360) (the claim, and the source comment
above the wrap, promise rotation stays in that range; the JS remainder
keeps the sign of its dividend). -/
theorem rotation_wrap_goes_negative :
    basePlayer.grounded = false ∧ basePlayer.rotation = 0 ∧ basePlayer.vx = 0 ∧
    (updatePlayer basePlayer).rotation = -5 ∧ (updatePlayer basePlayer).rotation < 0 := by
  have h : (updatePlayer basePlayer).rotation = -5 := by
    norm_num [updatePlayer, basePlayer, jsRem, ROTATION_SPEED, GRAVITY, DASH_COOLDOWN_TICKS,
      MAX_HORIZONTAL_SPEED, GROUND_MOVE_SPEED]
  exact ⟨rfl, rfl, rfl, h, by rw [h]; norm_num⟩

-- ===========================================================================
-- Claim C2: the dash trigger raises a ReferenceError
-- ===========================================================================

/-- Claim C2, failing-input evaluation: for every player positioned at
least one tile in from x = 0 (true of every spawn point and essentially
every in-level position) with dash cooldown elapsed and not already
dashing, a fresh input event with the dash bit set makes processInput
throw: whichever direction is chosen, the wall scan starts at a
non-negative column, whose iteration passes checkX >= 0 and then reads
the undeclared identifier level — so the dash never starts there,
while the claim says processing completes without any error. (Only a
leftward dash from x < 16 scans exclusively negative columns and
silently starts, skipping the wall-shortening check entirely.) -/
theorem dash_trigger_raises_reference_error (gs : GameState) (now : Int) (pid : String)
    (input : PlayerInput) (p : Player)
    (hfind : findPlayer gs pid = some p) (hstatus : gs.status = Status.racing)
    (hfin : p.finished = false) (hfresh : ¬ input.timestamp < now - 200)
    (hdash : input.dash = true) (hcool : p.dashCooldown ≤ 0) (hnd : p.isDashing = false)
    (hx : (16 : ℚ) ≤ p.x) :
    (processInput gs now pid input).2 = some (RuntimeError.referenceError "level") := by
  unfold processInput
  rw [hfind]
  simp only [hstatus, hfin, ne_eq, not_true_eq_false, if_false, Bool.false_eq_true, hfresh,
    reduceIte]
  have h1 : (applyJump input p).isDashing = false := by rw [applyJump_isDashing, hnd]
  have h2 : (applyMovement input (applyJump input p)).isDashing = false := by
    rw [applyMovement_isDashing, h1]
  have h3 : (applyMovement input (applyJump input p)).dashCooldown ≤ 0 := by
    rw [applyMovement_dashCooldown, applyJump_dashCooldown]; exact hcool
  have hx2 : (16 : ℚ) ≤ (applyMovement input (applyJump input p)).x := by
    rw [applyMovement_x, applyJump_x]; exact hx
  rw [processInputCore_dash_throws input p hdash h1 h3 h2
    (dashScanHitsLevel_of_ge16 input _ hx2)]

/-- Witness for dash_trigger_raises_reference_error at a concrete state
(player standing at x = 32). -/
theorem dash_trigger_raises_reference_error_witness :
    findPlayer { players := [("p1", pC6)], level := lvlC6, mode := Mode.sprint,
                 startTime := 0, endTime := none, status := Status.racing } "p1" = some pC6 ∧
    (16 : ℚ) ≤ pC6.x ∧
    (processInput { players := [("p1", pC6)], level := lvlC6, mode := Mode.sprint,
                    startTime := 0, endTime := none, status := Status.racing } 1000 "p1"
      { left := false, right := false, jump := false, dash := true, timestamp := 1000 }).2 =
      some (RuntimeError.referenceError "level") :=
  ⟨by decide, by norm_num [pC6, basePlayer],
   dash_trigger_raises_reference_error _ 1000 "p1" _ pC6 (by decide) rfl rfl
     (by decide) rfl (by decide) rfl (by norm_num [pC6, basePlayer])⟩

-- ===========================================================================
-- Claim C4: stale or unknown input events are silent no-ops
-- ===========================================================================

/-- Claim C4: an input event whose timestamp is older than the 200 ms
staleness window, or whose player id is absent from the GameState,
leaves the GameState unchanged and signals nothing to the caller. -/
theorem stale_or_absent_input_noop (gs : GameState) (now : Int) (pid : String)
    (input : PlayerInput)
    (h : findPlayer gs pid = none ∨ input.timestamp < now - 200) :
    processInput gs now pid input = (gs, none) := by
  unfold processInput
  rcases h with h | h
  · rw [h]
  · cases hf : findPlayer gs pid with
    | none => rfl
    | some p =>
      by_cases h1 : gs.status ≠ Status.racing
      · simp [h1]
      · by_cases h2 : p.finished
        · simp [h1, h2]
        · simp [h1, h2, h]

/-- Witness for stale_or_absent_input_noop: a stale event for an
existing player, at concrete values. -/
theorem stale_or_absent_input_noop_witness :
    ((500 : Int) < 1000 - 200) ∧
    processInput { players := [("p1", basePlayer)], level := lvlC1, mode := Mode.sprint,
                   startTime := 0, endTime := none, status := Status.racing } 1000 "p1"
      { left := true, right := false, jump := true, dash := true, timestamp := 500 } =
      ({ players := [("p1", basePlayer)], level := lvlC1, mode := Mode.sprint,
         startTime := 0, endTime := none, status := Status.racing }, none) :=
  ⟨by decide,
   stale_or_absent_input_noop _ 1000 "p1" _ (Or.inr (by decide))⟩

-- ===========================================================================
-- Claim C5: ground friction rules
-- ===========================================================================

/-- Claim C5: on an input event carrying no directional bits and not
triggering the dash ability, a grounded non-dashing player that stays
grounded (no jump bit) has horizontal velocity multiplied by
GROUND_FRICTION and snapped to zero below the 0.05 epsilon; an
airborne player keeps vx unchanged (no friction), and a dashing player
keeps vx unchanged. (The dash bit is excluded because a successful
dash start overwrites vx with the dash speed after friction has been
applied.) -/
theorem friction_rules (p : Player) (input : PlayerInput)
    (hl : input.left = false) (hr : input.right = false) (hda : input.dash = false) :
    (p.grounded = true → p.isDashing = false → input.jump = false →
      (processInputCore input p).1.vx =
        (if |p.vx * GROUND_FRICTION| < 1/20 then 0 else p.vx * GROUND_FRICTION)) ∧
    (p.grounded = false → (processInputCore input p).1.vx = p.vx) ∧
    (p.isDashing = true → (processInputCore input p).1.vx = p.vx) := by
  have hfst : (processInputCore input p).1 =
      if (applyJump input p).isDashing then applyJump input p
      else applyMovement input (applyJump input p) := by
    rw [processInputCore_no_dash input p hda]
  refine ⟨?_, ?_, ?_⟩
  · intro hg hd hj
    have hja : applyJump input p = p := by simp [applyJump, hj]
    rw [hfst, hja, applyJump_isDashing] at *
    rw [hd]
    simp only [Bool.false_eq_true, if_false]
    simp [applyMovement, hg, hl, hr]
  · intro hg
    have hjg : (applyJump input p).grounded = false := by
      unfold applyJump
      split_ifs <;> first | rfl | exact hg
    rw [hfst]
    by_cases h : (applyJump input p).isDashing
    · simp [h, applyJump_vx]
    · simp only [h, Bool.false_eq_true, if_false]
      rw [applyMovement, hjg]
      simp [hl, hr, applyJump_vx]
  · intro hd
    have h : (applyJump input p).isDashing = true := by rw [applyJump_isDashing, hd]
    rw [hfst, h]
    simp [applyJump_vx]

/-- Witness for friction_rules: a grounded player at vx = 10 with an
empty input decays to 10 * 0.92 = 46/5 (above the epsilon). -/
theorem friction_rules_witness :
    ({ basePlayer with grounded := true, vx := 10 } : Player).grounded = true ∧
    (processInputCore { left := false, right := false, jump := false, dash := false, timestamp := 0 }
        { basePlayer with grounded := true, vx := 10 }).1.vx =
      (if |(10 : ℚ) * GROUND_FRICTION| < 1/20 then 0 else (10 : ℚ) * GROUND_FRICTION) ∧
    (if |(10 : ℚ) * GROUND_FRICTION| < 1/20 then 0 else (10 : ℚ) * GROUND_FRICTION) = 46/5 :=
  ⟨rfl,
   (friction_rules { basePlayer with grounded := true, vx := 10 }
      { left := false, right := false, jump := false, dash := false, timestamp := 0 }
      rfl rfl rfl).1 rfl rfl rfl,
   by
     rw [if_neg]
     · norm_num [GROUND_FRICTION]
     · rw [abs_of_pos (by norm_num [GROUND_FRICTION] : (0 : ℚ) < 10 * GROUND_FRICTION)]
       norm_num [GROUND_FRICTION]⟩

-- ===========================================================================
-- Claim C10: input processing while dashing
-- ===========================================================================

/-- Claim C10: a fresh input event for a dashing player applies exactly
the jump rules (applyJump, which can fire the first or second jump) and
nothing else: horizontal velocity, the dashing flag, the cooldown and
the remaining dash distance are untouched, and no new dash starts. -/
theorem input_while_dashing (gs : GameState) (now : Int) (pid : String)
    (input : PlayerInput) (p : Player)
    (hfind : findPlayer gs pid = some p) (hstatus : gs.status = Status.racing)
    (hfin : p.finished = false) (hfresh : ¬ input.timestamp < now - 200)
    (hd : p.isDashing = true) :
    processInput gs now pid input = (setPlayer gs pid (applyJump input p), none) ∧
    (applyJump input p).vx = p.vx ∧
    (applyJump input p).isDashing = true ∧
    (applyJump input p).dashCooldown = p.dashCooldown ∧
    (applyJump input p).dashRemaining = p.dashRemaining := by
  have hja : (applyJump input p).isDashing = true := by rw [applyJump_isDashing, hd]
  refine ⟨?_, applyJump_vx input p, hja, applyJump_dashCooldown input p,
    applyJump_dashRemaining input p⟩
  unfold processInput
  rw [hfind]
  simp only [hstatus, hfin, ne_eq, not_true_eq_false, if_false, Bool.false_eq_true, hfresh,
    reduceIte]
  rw [processInputCore_dashing input p hja]

/-- Witness for input_while_dashing: a dashing player receiving a jump
press mid-dash. -/
theorem input_while_dashing_witness :
    pC7.isDashing = true ∧
    processInput { players := [("p1", pC7)], level := lvlC7, mode := Mode.sprint,
                   startTime := 0, endTime := none, status := Status.racing } 1000 "p1"
      { left := true, right := false, jump := true, dash := true, timestamp := 1000 } =
      (setPlayer { players := [("p1", pC7)], level := lvlC7, mode := Mode.sprint,
                   startTime := 0, endTime := none, status := Status.racing } "p1"
        (applyJump { left := true, right := false, jump := true, dash := true, timestamp := 1000 }
          pC7), none) :=
  ⟨rfl,
   (input_while_dashing _ 1000 "p1" _ pC7 (by decide) rfl rfl (by decide) rfl).1⟩

-- ===========================================================================
-- Claim C6: effects of ground contact
-- ===========================================================================

theorem fallbackScan_spec (lvl : Level) (pb : Int) (p p2 : Player) (l : List Int)
    (h : fallbackScan lvl pb p l = (p2, true)) :
    p2 = landResetDash ((pb : ℚ) * TILE_SIZE - PLAYER_SIZE) p ∨
    p2 = landResetDash ((pb : ℚ) * TILE_SIZE) p := by
  induction l with
  | nil => simp [fallbackScan] at h
  | cons x rest ih =>
    rw [fallbackScan] at h
    split_ifs at h with h1 h2
    · exact Or.inl (Prod.ext_iff.mp h).1.symm
    · exact Or.inr (Prod.ext_iff.mp h).1.symm
    · exact ih h

theorem landCenterOn_spec (pb : Int) (p : Player) :
    (landCenterOn pb p).grounded = true ∧ (landCenterOn pb p).vy = 0 ∧
    (landCenterOn pb p).rotation = 0 ∧ (landCenterOn pb p).x = p.x ∧
    (landCenterOn pb p).vx = p.vx ∧
    ((landCenterOn pb p).y = (pb : ℚ) * TILE_SIZE - PLAYER_SIZE ∨ (landCenterOn pb p).y = p.y) ∧
    (landCenterOn pb p).hasFirstJumped = false ∧ (landCenterOn pb p).hasSecondJump = false ∧
    (landCenterOn pb p).canDash = p.canDash ∧ (landCenterOn pb p).hasDashed = p.hasDashed := by
  simp only [landCenterOn]
  split_ifs <;> simp

theorem landResetDash_spec (ty : ℚ) (p : Player) :
    (landResetDash ty p).grounded = true ∧ (landResetDash ty p).vy = 0 ∧
    (landResetDash ty p).rotation = 0 ∧ (landResetDash ty p).x = p.x ∧
    (landResetDash ty p).vx = p.vx ∧
    ((landResetDash ty p).y = ty ∨ (landResetDash ty p).y = p.y) ∧
    (landResetDash ty p).canDash = true ∧ (landResetDash ty p).hasDashed = false ∧
    (landResetDash ty p).hasFirstJumped = p.hasFirstJumped ∧
    (landResetDash ty p).hasSecondJump = p.hasSecondJump := by
  simp only [landResetDash]
  split_ifs <;> simp

/-- Claim C6, counterexample: the center-on ground path detects contact
(the player is grounded afterwards, having entered airborne) yet the
dash-ready flag canDash stays false, so not every ground-detection path
resets the dash-ready flag as the claim states. -/
theorem ground_contact_keeps_canDash_false :
    pC6.grounded = false ∧ pC6.canDash = false ∧
    (checkCollisions lvlC6 pC6).grounded = true ∧
    (checkCollisions lvlC6 pC6).hasFirstJumped = false ∧
    (checkCollisions lvlC6 pC6).canDash = false := by
  rw [checkCollisions_lvlC6]
  refine ⟨rfl, rfl, ?_, ?_, ?_⟩ <;> norm_num [pC6r, pC6, basePlayer]

/-- Claim C6 as amended: every ground contact (any path returning
onGround) snaps Y to the tile top, the row below it, or leaves it (when
already within 0.1), zeroes vertical velocity, sets grounded, zeroes
rotation and preserves x and vx; the center-on path resets both jump
flags but leaves canDash/hasDashed unchanged, while the center-below
and full-column fallback paths reset canDash/hasDashed but leave the
jump flags unchanged — no path resets both flag families. -/
theorem ground_contact_effects (lvl : Level) (pcx pl pr pb : Int) (p p2 : Player)
    (h : groundStage lvl pcx pl pr pb p = (p2, true)) :
    p2.grounded = true ∧ p2.vy = 0 ∧ p2.rotation = 0 ∧ p2.x = p.x ∧ p2.vx = p.vx ∧
    (p2.y = (pb : ℚ) * TILE_SIZE - PLAYER_SIZE ∨ p2.y = (pb : ℚ) * TILE_SIZE ∨ p2.y = p.y) ∧
    ((p2.hasFirstJumped = false ∧ p2.hasSecondJump = false ∧
      p2.canDash = p.canDash ∧ p2.hasDashed = p.hasDashed) ∨
     (p2.canDash = true ∧ p2.hasDashed = false ∧
      p2.hasFirstJumped = p.hasFirstJumped ∧ p2.hasSecondJump = p.hasSecondJump)) := by
  rw [groundStage] at h
  split_ifs at h with h1 h2
  · have hp : p2 = landCenterOn pb p := (Prod.ext_iff.mp h).1.symm
    obtain ⟨a, b, c, d, e, f, g, i, j, k⟩ := landCenterOn_spec pb p
    subst hp
    refine ⟨a, b, c, d, e, ?_, Or.inl ⟨g, i, j, k⟩⟩
    rcases f with f | f
    · exact Or.inl f
    · exact Or.inr (Or.inr f)
  · have hp : p2 = landResetDash ((pb : ℚ) * TILE_SIZE) p := (Prod.ext_iff.mp h).1.symm
    obtain ⟨a, b, c, d, e, f, g, i, j, k⟩ := landResetDash_spec ((pb : ℚ) * TILE_SIZE) p
    subst hp
    refine ⟨a, b, c, d, e, ?_, Or.inr ⟨g, i, j, k⟩⟩
    rcases f with f | f
    · exact Or.inr (Or.inl f)
    · exact Or.inr (Or.inr f)
  · rcases fallbackScan_spec lvl pb p p2 _ h with hp | hp
    · obtain ⟨a, b, c, d, e, f, g, i, j, k⟩ :=
        landResetDash_spec ((pb : ℚ) * TILE_SIZE - PLAYER_SIZE) p
      subst hp
      refine ⟨a, b, c, d, e, ?_, Or.inr ⟨g, i, j, k⟩⟩
      rcases f with f | f
      · exact Or.inl f
      · exact Or.inr (Or.inr f)
    · obtain ⟨a, b, c, d, e, f, g, i, j, k⟩ := landResetDash_spec ((pb : ℚ) * TILE_SIZE) p
      subst hp
      refine ⟨a, b, c, d, e, ?_, Or.inr ⟨g, i, j, k⟩⟩
      rcases f with f | f
      · exact Or.inr (Or.inl f)
      · exact Or.inr (Or.inr f)

/-- Witness for ground_contact_effects at the lvlC6 landing. -/
theorem ground_contact_effects_witness :
    groundStage lvlC6 2 2 3 3 pC6 = (pC6r, true) ∧ pC6r.grounded = true :=
  ⟨groundStage_lvlC6, (ground_contact_effects lvlC6 2 2 3 3 pC6 pC6r groundStage_lvlC6).1⟩

-- ===========================================================================
-- Claim C7: hazard respawn
-- ===========================================================================

/-- Claim C7, counterexample: a dashing player whose box overlaps a
hazard is respawned (position moves to the start tile), but isDashing
is left true — the dash-in-progress flags are not cleared by the
respawn, contradicting the claim that the tick clears the dash flags. -/
theorem hazard_respawn_keeps_isDashing :
    pC7.isDashing = true ∧ pC7.dashRemaining = 77 ∧
    (checkCollisions lvlC7 pC7).x = 0 ∧
    (checkCollisions lvlC7 pC7).lastCheckpoint = -1 ∧
    (checkCollisions lvlC7 pC7).isDashing = true ∧
    (checkCollisions lvlC7 pC7).dashRemaining = 77 := by
  rw [checkCollisions_lvlC7]
  have hst : lvlC7.tiles.find? (fun t => t.type == TileType.start) =
      some (⟨0, 0, TileType.start⟩ : Tile) := by decide
  refine ⟨rfl, rfl, ?_, ?_, ?_, ?_⟩ <;>
    norm_num [respawnPlayer, hst, pC7, basePlayer, TILE_SIZE]

/-- Claim C7 as amended: when the box (computed at tick entry) overlaps
a hazard tile and neither the embedded-wall clamp nor the side-wall
check exits early, the tick ends by respawning: position moves on top
of the first start tile, both velocity components are zeroed, the
grounded and jump flags are cleared, canDash is set true, hasDashed
false, the dash cooldown becomes 0 and lastCheckpoint becomes -1, and
no further collision processing runs; isDashing and dashRemaining are
left unchanged. -/
theorem hazard_respawn_effects (lvl : Level) (p0 q r : Player) (t : Tile)
    (hhaz : hazardInBox lvl (pLeftOf p0) (pRightOf p0) (pTopOf p0) (pBottomOf p0) = true)
    (hecl : eclampStage lvl (pLeftOf p0) (pRightOf p0) (pBottomOf p0) (ccStage3 lvl p0).1 =
      Except.ok q)
    (hsw : swallStage lvl (pLeftOf p0) (pRightOf p0) (pTopOf p0) (pBottomOf p0) q =
      Except.ok r)
    (hstart : lvl.tiles.find? (fun u => u.type == TileType.start) = some t) :
    checkCollisions lvl p0 = respawnPlayer lvl r ∧
    respawnPlayer lvl r =
      { r with x := (t.x : ℚ) * TILE_SIZE, y := (t.y : ℚ) * TILE_SIZE - PLAYER_SIZE,
               vx := 0, vy := 0, grounded := false,
               hasFirstJumped := false, hasSecondJump := false,
               canDash := true, hasDashed := false, dashCooldown := 0,
               lastCheckpoint := -1 } ∧
    (respawnPlayer lvl r).isDashing = r.isDashing ∧
    (respawnPlayer lvl r).dashRemaining = r.dashRemaining := by
  have hr : respawnPlayer lvl r =
      { r with x := (t.x : ℚ) * TILE_SIZE, y := (t.y : ℚ) * TILE_SIZE - PLAYER_SIZE,
               vx := 0, vy := 0, grounded := false,
               hasFirstJumped := false, hasSecondJump := false,
               canDash := true, hasDashed := false, dashCooldown := 0,
               lastCheckpoint := -1 } := by
    unfold respawnPlayer
    rw [hstart]
  refine ⟨?_, hr, by rw [hr], by rw [hr]⟩
  simp only [checkCollisions, hecl, hsw, hhaz, if_true]

/-- Witness for hazard_respawn_effects at the lvlC7 scenario. -/
theorem hazard_respawn_effects_witness :
    hazardInBox lvlC7 (pLeftOf pC7) (pRightOf pC7) (pTopOf pC7) (pBottomOf pC7) = true ∧
    checkCollisions lvlC7 pC7 = respawnPlayer lvlC7 pC7 := by
  obtain ⟨hbl, hbr, hbt, hbb, _⟩ := pC7_box
  have hhaz : hazardInBox lvlC7 (pLeftOf pC7) (pRightOf pC7) (pTopOf pC7) (pBottomOf pC7) =
      true := by
    rw [hbl, hbr, hbt, hbb]; decide
  have hecl : eclampStage lvlC7 (pLeftOf pC7) (pRightOf pC7) (pBottomOf pC7)
      (ccStage3 lvlC7 pC7).1 = Except.ok pC7 := by
    rw [hbl, hbr, hbb, ccStage3_lvlC7]
    exact eclampStage_lvlC7
  have hsw : swallStage lvlC7 (pLeftOf pC7) (pRightOf pC7) (pTopOf pC7) (pBottomOf pC7) pC7 =
      Except.ok pC7 := by
    rw [hbl, hbr, hbt, hbb]
    exact swallStage_lvlC7
  have hst : lvlC7.tiles.find? (fun u => u.type == TileType.start) =
      some (⟨0, 0, TileType.start⟩ : Tile) := by decide
  exact ⟨hhaz,
    (hazard_respawn_effects lvlC7 pC7 pC7 pC7 ⟨0, 0, TileType.start⟩ hhaz hecl hsw hst).1⟩

-- ===========================================================================
-- Claim C3: a finished player is frozen
-- ===========================================================================

theorem find?_map_keys (l : List (String × Player)) (pid : String)
    (f : String × Player → String × Player) (hk : ∀ e, (f e).1 = e.1) :
    (l.map f).find? (fun e => e.1 == pid) = (l.find? (fun e => e.1 == pid)).map f := by
  induction l with
  | nil => rfl
  | cons a rest ih =>
    rw [List.map_cons, List.find?_cons, List.find?_cons, hk a]
    cases h : (a.1 == pid)
    · simpa [h] using ih
    · simp [h]

theorem findPlayer_withPlayers (gs : GameState) (l : List (String × Player)) (pid : String) :
    findPlayer { gs with players := l } pid = (l.find? (fun e => e.1 == pid)).map (·.2) := rfl

theorem findPlayer_checkRaceEnd (gs : GameState) (now : Int) (pid : String) :
    findPlayer (checkRaceEnd gs now) pid = findPlayer gs pid := by
  unfold checkRaceEnd
  split_ifs <;> rfl

theorem tickEntry_key (lvl : Level) (mode : Mode) (startTime now : Int) (e : String × Player) :
    (tickEntry lvl mode startTime now e).1 = e.1 := by
  unfold tickEntry; split <;> rfl

theorem tickEntry_finished (lvl : Level) (mode : Mode) (startTime now : Int)
    (e : String × Player) (h : e.2.finished = true) :
    tickEntry lvl mode startTime now e = e := by
  unfold tickEntry; rw [h]; simp

theorem setEntry_key (pid : String) (p : Player) (e : String × Player) :
    (setEntry pid p e).1 = e.1 := by
  unfold setEntry; split <;> rfl

theorem findPlayer_setPlayer_ne (gs : GameState) (pid pid2 : String) (q : Player)
    (h : pid ≠ pid2) :
    findPlayer (setPlayer gs pid2 q) pid = findPlayer gs pid := by
  unfold findPlayer setPlayer
  rw [show ({ gs with players := gs.players.map (setEntry pid2 q) } : GameState).players =
    gs.players.map (setEntry pid2 q) from rfl]
  rw [find?_map_keys _ _ _ (setEntry_key pid2 q)]
  cases he : gs.players.find? (fun e => e.1 == pid) with
  | none => rfl
  | some e =>
    have h1 : (e.1 == pid) = true := by simpa using List.find?_some he
    have h2 : (e.1 == pid2) = false := by
      rw [beq_eq_false_iff_ne]
      rw [eq_of_beq h1]
      exact h
    simp only [Option.map_some']
    unfold setEntry
    rw [h2]
    simp

theorem processInput_found (gs : GameState) (now : Int) (pid : String) (input : PlayerInput)
    (p : Player) (h : findPlayer gs pid = some p) :
    processInput gs now pid input =
      if gs.status ≠ Status.racing then (gs, none)
      else if p.finished = true then (gs, none)
      else if input.timestamp < now - 200 then (gs, none)
      else (setPlayer gs pid (processInputCore input p).1, (processInputCore input p).2) := by
  unfold processInput
  rw [h]

/-- Claim C3: once a player record has finished = true, a Driver tick
leaves the record untouched (the update loop skips finished players and
checkRaceEnd only touches race status), and any later input event (for
this or any other player id) also leaves the record untouched
(processInput drops events for finished players). finishTime, being a
field of the record, is in particular never overwritten. -/
theorem finished_player_frozen (g : GameLoopState) (now : Int) (pid : String) (p : Player)
    (hfind : findPlayer g.gameState pid = some p) (hfin : p.finished = true) :
    findPlayer (update g now).gameState pid = some p ∧
    ∀ (now2 : Int) (pid2 : String) (input : PlayerInput),
      findPlayer (processInput g.gameState now2 pid2 input).1 pid = some p := by
  constructor
  · unfold update
    split_ifs with h1 h2
    · exact hfind
    · exact hfind
    · show findPlayer (checkRaceEnd _ now) pid = some p
      rw [findPlayer_checkRaceEnd, findPlayer_withPlayers]
      rw [find?_map_keys _ _ _ (tickEntry_key g.gameState.level g.gameState.mode
        g.gameState.startTime now)]
      unfold findPlayer at hfind
      cases he : g.gameState.players.find? (fun e => e.1 == pid) with
      | none => rw [he] at hfind; simp at hfind
      | some e =>
        rw [he] at hfind
        simp only [Option.map_some'] at hfind
        have hep : e.2 = p := by injection hfind
        simp only [Option.map_some']
        rw [tickEntry_finished _ _ _ _ e (by rw [hep]; exact hfin)]
        rw [hep]
  · intro now2 pid2 input
    cases hf2 : findPlayer g.gameState pid2 with
    | none =>
      unfold processInput
      rw [hf2]
      exact hfind
    | some p2 =>
      rw [processInput_found g.gameState now2 pid2 input p2 hf2]
      by_cases hs : g.gameState.status ≠ Status.racing
      · rw [if_pos hs]; exact hfind
      · rw [if_neg hs]
        by_cases hfin2 : p2.finished = true
        · rw [if_pos hfin2]; exact hfind
        · rw [if_neg hfin2]
          by_cases hst : input.timestamp < now2 - 200
          · rw [if_pos hst]; exact hfind
          · rw [if_neg hst]
            show findPlayer (setPlayer g.gameState pid2 (processInputCore input p2).1) pid =
              some p
            by_cases hp : pid = pid2
            · exfalso
              rw [hp, hf2] at hfind
              have hpp : p2 = p := by injection hfind
              rw [hpp] at hfin2
              exact hfin2 hfin
            · rw [findPlayer_setPlayer_ne _ _ _ _ hp]
              exact hfind

/-- Witness for finished_player_frozen at a concrete finished player. -/
theorem finished_player_frozen_witness :
    findPlayer { players := [("p1", { basePlayer with finished := true, finishTime := some 7 })],
                 level := lvlC1, mode := Mode.sprint, startTime := 0, endTime := none,
                 status := Status.racing } "p1" =
      some { basePlayer with finished := true, finishTime := some 7 } ∧
    findPlayer (update { gameState :=
        { players := [("p1", { basePlayer with finished := true, finishTime := some 7 })],
          level := lvlC1, mode := Mode.sprint, startTime := 0, endTime := none,
          status := Status.racing }, lastTick := 0 } 100).gameState "p1" =
      some { basePlayer with finished := true, finishTime := some 7 } ∧
    findPlayer (processInput
        { players := [("p1", { basePlayer with finished := true, finishTime := some 7 })],
          level := lvlC1, mode := Mode.sprint, startTime := 0, endTime := none,
          status := Status.racing } 500 "p1"
        { left := true, right := false, jump := true, dash := true, timestamp := 500 }).1 "p1" =
      some { basePlayer with finished := true, finishTime := some 7 } :=
  ⟨by decide,
   (finished_player_frozen { gameState :=
      { players := [("p1", { basePlayer with finished := true, finishTime := some 7 })],
        level := lvlC1, mode := Mode.sprint, startTime := 0, endTime := none,
        status := Status.racing }, lastTick := 0 } 100 "p1"
      { basePlayer with finished := true, finishTime := some 7 } (by decide) rfl).1,
   (finished_player_frozen { gameState :=
      { players := [("p1", { basePlayer with finished := true, finishTime := some 7 })],
        level := lvlC1, mode := Mode.sprint, startTime := 0, endTime := none,
        status := Status.racing }, lastTick := 0 } 100 "p1"
      { basePlayer with finished := true, finishTime := some 7 } (by decide) rfl).2 500 "p1"
      { left := true, right := false, jump := true, dash := true, timestamp := 500 }⟩

end PixelDash
